import Mathlib

/-!
Shallow embedding of the map viewer client (ArkVault/orber1):
the indicator catalog, the WMS layer binding, the search adapter,
the draw/export bridge and the popover click-outside handler, all
translated from src/src/components/Map/Map.tsx and the DrawControl
component in src/unnamed/part_000.  Asynchronous handlers are split
into explicit phases at their await points; the fetches and the map
instance are modelled as explicit inputs (response values passed in,
an optional view record) since they are external to the component.
-/

namespace Orber

/-- One entry of the static indicator catalog (Map.tsx lines 47 to 103).
In the source each entry is a literal object whose `type` and `layer`
properties may be absent; absent properties are modelled as `none`.
Purely presentational properties (icon, color ramp, description, quote,
discrete legend entries) play no role in any behaviour and are omitted. -/
structure Indicator where
  name : String
  type : Option String := none
  layer : Option String := none
  unit : Option String := none
deriving Repr, DecidableEq

/-- Catalog entry: Natural Color (type natural, no layer). -/
def naturalColor : Indicator :=
  { name := "Natural Color", type := some "natural" }

/-- Catalog entry: Chlorophyll-a, WMS layer CHLA. -/
def chlorophyll : Indicator :=
  { name := "Chlorophyll-a", layer := some "CHLA", unit := some "mg/m³" }

/-- Catalog entry: Dissolved Oxygen. -/
def dissolvedOxygen : Indicator :=
  { name := "Dissolved Oxygen", layer := some "DISSOLVED-OXYGEN", unit := some "mg/L" }

/-- Catalog entry: Total Suspended Solids. -/
def totalSuspendedSolids : Indicator :=
  { name := "Total Suspended Solids", layer := some "TOTAL-SUSPENDED-SOLIDS", unit := some "mg/L" }

/-- Catalog entry: Turbidity. -/
def turbidity : Indicator :=
  { name := "Turbidity", layer := some "TURBIDITY", unit := some "NTU" }

/-- Catalog entry: Forest Fires (type discrete). -/
def forestFires : Indicator :=
  { name := "Forest Fires", type := some "discrete", layer := some "INCENDIOS-FORESTALES" }

/-- The indicator catalog, in source order (Map.tsx line 47). -/
def indicators : List Indicator :=
  [naturalColor, chlorophyll, dissolvedOxygen, totalSuspendedSolids, turbidity, forestFires]

/-- The fixed WMS endpoint (Map.tsx line 45). -/
def WMS_URL : String :=
  "https://sh.dataspace.copernicus.eu/ogc/wms/fd8fbb51-cfdf-460d-9839-6dc55ee39ffa"

/-- A geocoding search result: the fields of a Nominatim response entry
that the component reads (display_name, lat, lon; lat and lon are strings
that get parsed to floats only on selection). -/
structure SearchResult where
  display_name : String
  lat : String
  lon : String
deriving Repr, DecidableEq

/-- The React state of the Map component: one field per useState hook
(Map.tsx lines 150 to 161).  The decorative dateRange state (never read
by any handler or data path) and the mapRef (external map instance,
modelled separately as an optional view record) are not part of it. -/
structure MapState where
  isPanelVisible : Bool
  selectedIndicator : Indicator
  showDatePicker : Bool
  showSensorMenu : Bool
  isDrawing : Bool
  selectedLayer : String
  isLoading : Bool
  showSearch : Bool
  searchQuery : String
  searchResults : List SearchResult
  isSearching : Bool
deriving Repr, DecidableEq

/-- The initial state: the useState defaults of Map.tsx lines 150 to 161
(selected indicator defaults to indicators[0], the Natural Color entry). -/
def initialState : MapState :=
  { isPanelVisible := true
    selectedIndicator := naturalColor
    showDatePicker := false
    showSensorMenu := false
    isDrawing := false
    selectedLayer := ""
    isLoading := false
    showSearch := false
    searchQuery := ""
    searchResults := []
    isSearching := false }

/-! ## Indicator selection and layer binding -/

/-- The simulated loading delay in milliseconds
(`setTimeout(resolve, 3000)`, Map.tsx line 191). -/
def delayMs : Nat := 3000

/-- First phase of handleIndicatorSelect (Map.tsx lines 187 to 188),
everything before the awaited delay: `setIsLoading(true)` and
`setSelectedIndicator(indicator)`. -/
def selectPhase1 (indicator : Indicator) (s : MapState) : MapState :=
  { s with isLoading := true, selectedIndicator := indicator }

/-- Second phase of handleIndicatorSelect (Map.tsx lines 193 to 198),
everything after the awaited delay: `setSelectedLayer(indicator.layer || "")`
when the type is not natural, `setSelectedLayer("")` otherwise, then
`setIsLoading(false)`. -/
def selectPhase2 (indicator : Indicator) (s : MapState) : MapState :=
  if indicator.type ≠ some "natural" then
    { s with selectedLayer := indicator.layer.getD "", isLoading := false }
  else
    { s with selectedLayer := "", isLoading := false }

/-- The complete handleIndicatorSelect transition: phase 1, the delay,
then phase 2. -/
def handleIndicatorSelect (indicator : Indicator) (s : MapState) : MapState :=
  selectPhase2 indicator (selectPhase1 indicator s)

/-- The WMS overlay descriptor: the props passed to WMSTileLayer when it
is rendered (Map.tsx lines 394 to 401). -/
structure OverlayDescriptor where
  url : String
  layerId : String
  format : String
  transparent : Bool
  version : String
deriving Repr, DecidableEq

/-- The rendered overlay as a function of the state (Map.tsx lines 393
to 402): the WMSTileLayer is mounted exactly when `selectedLayer` is a
nonempty (truthy) string and the selected indicator is not of type
natural, with fixed format, transparency and protocol version. -/
def overlayOf (selectedLayer : String) (selectedIndicator : Indicator) :
    Option OverlayDescriptor :=
  if selectedLayer ≠ "" ∧ selectedIndicator.type ≠ some "natural" then
    some { url := WMS_URL
           layerId := selectedLayer
           format := "image/png"
           transparent := true
           version := "1.3.0" }
  else
    none

/-- The overlay currently rendered for a component state. -/
def overlayState (s : MapState) : Option OverlayDescriptor :=
  overlayOf s.selectedLayer s.selectedIndicator

/-- The layer binding contract of the spec, derived from the code: the
overlay rendered once a selection of the given indicator has completed.
(The result does not depend on the state the selection started from,
as `bindIndicator_eq` proves.) -/
def bindIndicator (indicator : Indicator) : Option OverlayDescriptor :=
  overlayState (handleIndicatorSelect indicator initialState)

/-- Helper: the overlay after a completed selection depends only on the
selected indicator, never on the prior state. -/
theorem bindIndicator_eq (indicator : Indicator) (s : MapState) :
    overlayState (handleIndicatorSelect indicator s) = bindIndicator indicator := by
  unfold bindIndicator overlayState handleIndicatorSelect selectPhase2 selectPhase1
  by_cases h : indicator.type = some "natural" <;> simp [h]

/-! ## Search adapter -/

/-- handleSearch (Map.tsx lines 201 to 219) as a state transition.  The
geocoding fetch is external, so its outcome is an explicit input: `.ok data`
for a parsed JSON response, `.error ()` for a transport failure.  The
result triple is the new component state, the number of geocoding requests
the call issued, and whether the failure branch wrote to the diagnostic
log (`console.error`).  Queries shorter than 3 characters clear the
results and return before any request; a successful response is stored
truncated by `data.slice(0, 5)`; the catch branch logs and clears. -/
def handleSearch (query : String) (resp : Except Unit (List SearchResult))
    (s : MapState) : MapState × Nat × Bool :=
  if query.length < 3 then
    ({ s with searchResults := [] }, 0, false)
  else
    match resp with
    | .ok data => ({ s with searchResults := data.take 5, isSearching := false }, 1, false)
    | .error _ => ({ s with searchResults := [], isSearching := false }, 1, true)

/-! ## Location selection -/

/-- The map view after `setView`: center coordinates and zoom level.
Coordinates are abstract here; the parse of the lat and lon strings is a
parameter of `handleLocationSelect` because `parseFloat` is a browser
builtin outside the repository. -/
structure MapView where
  lat : Rat
  lon : Rat
  zoom : Nat
deriving Repr, DecidableEq

/-- Component state plus the external Leaflet map instance: `view = none`
models a null `mapRef.current`. -/
structure SessionState where
  shell : MapState
  view : Option MapView
deriving Repr, DecidableEq

/-- handleLocationSelect (Map.tsx lines 221 to 228): when the map instance
exists, `setView([parseFloat(result.lat), parseFloat(result.lon)], 12)`;
then `setShowSearch(false)`, `setSearchQuery("")`, `setSearchResults([])`.
`pf` stands for the external parseFloat builtin. -/
def handleLocationSelect (pf : String → Rat) (result : SearchResult)
    (s : SessionState) : SessionState :=
  { view := match s.view with
      | some _ => some { lat := pf result.lat, lon := pf result.lon, zoom := 12 }
      | none => none
    shell := { s.shell with showSearch := false, searchQuery := "", searchResults := [] } }

/-! ## Draw and export bridge -/

/-- A file produced by the fire-and-forget browser download in
handleSaveKML (Map.tsx lines 174 to 184): blob content, blob MIME type,
anchor download filename. -/
structure Artifact where
  content : String
  mime : String
  filename : String
deriving Repr, DecidableEq

/-- handleSaveKML (Map.tsx lines 174 to 184): wraps the KML text in a
blob of the KML MIME type and downloads it as area-selection.kml. -/
def handleSaveKML (kml : String) : Artifact :=
  { content := kml
    mime := "application/vnd.google-earth.kml+xml"
    filename := "area-selection.kml" }

/-- The constant placeholder KML the DrawControl passes to onSave
(src/unnamed/part_000 line 42). -/
def placeholderKML : String := "<kml>Placeholder KML content</kml>"

/-- The draw session: the shell state, the layers held by the drawnItems
feature group, and the artifacts downloaded so far.  The completed layer
objects are opaque toolkit values, hence the type parameter. -/
structure DrawSession (γ : Type) where
  shell : MapState
  drawnItems : List γ
  artifacts : List Artifact
deriving Repr

/-- The L.Draw.Event.CREATED handler (src/unnamed/part_000 lines 37 to 43):
`drawnItems.addLayer(e.layer)`, then `onDrawingComplete()` which is
`setIsDrawing(false)` (Map.tsx line 408), then `onSave` of the placeholder
KML, which is handleSaveKML and downloads one artifact. -/
def onDrawCreated {γ : Type} (layer : γ) (s : DrawSession γ) : DrawSession γ :=
  { shell := { s.shell with isDrawing := false }
    drawnItems := s.drawnItems ++ [layer]
    artifacts := s.artifacts ++ [handleSaveKML placeholderKML] }

/-! ## Click-outside handler -/

/-- Classification of a mousedown target by the four `closest` tests of
handleClickOutside: whether the target lies inside the date-picker
popover container, the date trigger button, the sensor-menu popover
container, or the sensor trigger button. -/
structure ClickTarget where
  inDatePickerContainer : Bool
  inDateButton : Bool
  inSensorMenuContainer : Bool
  inSensorButton : Bool
deriving Repr, DecidableEq

/-- handleClickOutside (Map.tsx lines 164 to 172), the document mousedown
listener: closes the date picker unless the target is inside its container
or its trigger, and independently closes the sensor menu unless the target
is inside its container or its trigger. -/
def handleClickOutside (t : ClickTarget) (s : MapState) : MapState :=
  let s1 :=
    if t.inDatePickerContainer = false ∧ t.inDateButton = false then
      { s with showDatePicker := false }
    else s
  if t.inSensorMenuContainer = false ∧ t.inSensorButton = false then
    { s1 with showSensorMenu := false }
  else s1

/-! ## Capabilities fetch and legend ranges -/

/-- A legend value range (the WMS_RANGES table, Map.tsx lines 106 to 131). -/
structure WMSRange where
  min : Nat
  mid : Nat
  max : Nat
  unit : String
deriving Repr, DecidableEq

/-- The static WMS_RANGES lookup table (Map.tsx lines 106 to 131). -/
def WMS_RANGES : String → Option WMSRange
  | "CHLA" => some { min := 0, mid := 5, max := 10, unit := "mg/m³" }
  | "DISSOLVED-OXYGEN" => some { min := 0, mid := 7, max := 14, unit := "mg/L" }
  | "TOTAL-SUSPENDED-SOLIDS" => some { min := 0, mid := 50, max := 100, unit := "mg/L" }
  | "TURBIDITY" => some { min := 0, mid := 25, max := 50, unit := "NTU" }
  | _ => none

/-- The three numbers shown beside the legend color ramp for a selected
indicator (Map.tsx lines 466 to 479), top to bottom: the WMS_RANGES entry
when the indicator has a layer found in the table, the static 100/50/0
fallback otherwise. -/
def legendLabels (indicator : Indicator) : Nat × Nat × Nat :=
  match indicator.layer with
  | some l =>
    match WMS_RANGES l with
    | some r => (r.max, r.mid, r.min)
    | none => (100, 50, 0)
  | none => (100, 50, 0)

/-- What a fetch handler wrote to the browser console. -/
inductive LogEntry where
  | capabilities (xml : String)
  | capabilitiesError
deriving Repr, DecidableEq

/-- fetchWMSCapabilities (Map.tsx lines 134 to 147), run once at mount:
fetches GetCapabilities, and on success only logs the parsed XML document
(`console.log(xmlDoc)`); on failure only logs the error.  It takes and
returns the component state to make its frame explicit: no branch touches
any state. -/
def fetchWMSCapabilities (resp : Except Unit String) (s : MapState) :
    MapState × LogEntry :=
  match resp with
  | .ok text => (s, .capabilities text)
  | .error _ => (s, .capabilitiesError)

/-! ## Claims -/

/-- Claim C1: for every indicator in the catalog, if its type is natural
or its layer is absent then selecting it yields no WMS overlay (the
overlay state is none); otherwise selecting it yields a descriptor whose
layerId equals the layer of the indicator, with format image/png,
transparent true and version 1.3.0. -/
theorem claim_C1 : ∀ ind ∈ indicators,
    (ind.type = some "natural" ∨ ind.layer = none → bindIndicator ind = none) ∧
    (¬(ind.type = some "natural" ∨ ind.layer = none) →
      bindIndicator ind = some
        { url := WMS_URL
          layerId := ind.layer.getD ""
          format := "image/png"
          transparent := true
          version := "1.3.0" }) := by
  decide

/-- Witness for claim C1 at concrete catalog entries: the natural entry
binds to no overlay, and the Chlorophyll-a entry binds to the CHLA
descriptor. -/
theorem claim_C1_witness :
    bindIndicator naturalColor = none ∧
    bindIndicator chlorophyll = some
      { url := WMS_URL
        layerId := "CHLA"
        format := "image/png"
        transparent := true
        version := "1.3.0" } :=
  ⟨(claim_C1 naturalColor (by decide)).1 (by decide),
   (claim_C1 chlorophyll (by decide)).2 (by decide)⟩

/-- Claim C5: selecting indicator A, then B, then A again leaves the
overlay state equal to exactly the overlay produced by selecting A alone;
the binding depends only on the currently selected indicator. -/
theorem claim_C5 (A B : Indicator) (s : MapState) :
    overlayState
        (handleIndicatorSelect A
          (handleIndicatorSelect B (handleIndicatorSelect A s)))
      = overlayState (handleIndicatorSelect A s) ∧
    overlayState (handleIndicatorSelect A s) = bindIndicator A := by
  refine ⟨?_, bindIndicator_eq A s⟩
  rw [bindIndicator_eq A s,
    bindIndicator_eq A (handleIndicatorSelect B (handleIndicatorSelect A s))]

/-- Claim C10: in every selection call, phase 1 (before the simulated
3000 ms delay) sets the loading flag and the selected indicator while
leaving the overlay layer id untouched; only phase 2 (after the delay)
updates the layer id and clears the loading flag; consequently there is
a loading window in which the selected indicator and the rendered
overlay refer to two different indicators, as the concrete run of
selecting Chlorophyll-a and then starting to select Dissolved Oxygen
shows. -/
theorem claim_C10 :
    (∀ (ind : Indicator) (s : MapState),
      (selectPhase1 ind s).isLoading = true ∧
      (selectPhase1 ind s).selectedIndicator = ind ∧
      (selectPhase1 ind s).selectedLayer = s.selectedLayer) ∧
    (∀ (ind : Indicator) (s : MapState),
      (selectPhase2 ind s).isLoading = false ∧
      (selectPhase2 ind s).selectedIndicator = s.selectedIndicator ∧
      (selectPhase2 ind s).selectedLayer =
        (if ind.type ≠ some "natural" then ind.layer.getD "" else "")) ∧
    delayMs = 3000 ∧
    ((selectPhase1 dissolvedOxygen
        (handleIndicatorSelect chlorophyll initialState)).isLoading = true ∧
     (selectPhase1 dissolvedOxygen
        (handleIndicatorSelect chlorophyll initialState)).selectedIndicator
        = dissolvedOxygen ∧
     overlayState (selectPhase1 dissolvedOxygen
        (handleIndicatorSelect chlorophyll initialState))
        = bindIndicator chlorophyll ∧
     bindIndicator chlorophyll ≠ bindIndicator dissolvedOxygen) := by
  refine ⟨?_, ?_, rfl, by decide⟩
  · intro ind s
    exact ⟨rfl, rfl, rfl⟩
  · intro ind s
    unfold selectPhase2
    by_cases h : ind.type = some "natural" <;> simp [h]

/-- Claim C2: a search call with a query shorter than 3 characters issues
no geocoding request and leaves the result list empty; a call with a query
of 3 or more characters issues exactly one geocoding request. -/
theorem claim_C2 (query : String) (resp : Except Unit (List SearchResult))
    (s : MapState) :
    (query.length < 3 →
      (handleSearch query resp s).2.1 = 0 ∧
      (handleSearch query resp s).1.searchResults = []) ∧
    (3 ≤ query.length → (handleSearch query resp s).2.1 = 1) := by
  constructor
  · intro h
    simp [handleSearch, if_pos h]
  · intro h
    unfold handleSearch
    rw [if_neg (Nat.not_lt.mpr h)]
    cases resp <;> rfl

/-- Witness for claim C2: the two-character query "ab" issues no request
and clears the results; the three-character query "gua" issues one. -/
theorem claim_C2_witness :
    (handleSearch "ab" (.ok []) initialState).2.1 = 0 ∧
    (handleSearch "ab" (.ok []) initialState).1.searchResults = [] ∧
    (handleSearch "gua" (.ok []) initialState).2.1 = 1 :=
  ⟨((claim_C2 "ab" (.ok []) initialState).1 (by decide)).1,
   ((claim_C2 "ab" (.ok []) initialState).1 (by decide)).2,
   (claim_C2 "gua" (.ok []) initialState).2 (by decide)⟩

/-- Claim C3: for every provider response list, the stored result list
after a completed search is exactly the first min(5, length) entries of
the response, in provider order (it is the 5-element prefix). -/
theorem claim_C3 (query : String) (data : List SearchResult) (s : MapState)
    (h : 3 ≤ query.length) :
    (handleSearch query (.ok data) s).1.searchResults = data.take 5 ∧
    ((handleSearch query (.ok data) s).1.searchResults).length
      = min 5 data.length := by
  unfold handleSearch
  rw [if_neg (Nat.not_lt.mpr h)]
  exact ⟨rfl, List.length_take 5 data⟩

/-- An eight-entry provider response used to witness the truncation. -/
def sampleResults : List SearchResult :=
  [{ display_name := "r1", lat := "1", lon := "1" },
   { display_name := "r2", lat := "2", lon := "2" },
   { display_name := "r3", lat := "3", lon := "3" },
   { display_name := "r4", lat := "4", lon := "4" },
   { display_name := "r5", lat := "5", lon := "5" },
   { display_name := "r6", lat := "6", lon := "6" },
   { display_name := "r7", lat := "7", lon := "7" },
   { display_name := "r8", lat := "8", lon := "8" }]

/-- Witness for claim C3: a response with 8 results yields exactly its
first 5 entries. -/
theorem claim_C3_witness :
    (handleSearch "guadalajara" (.ok sampleResults) initialState).1.searchResults
      = sampleResults.take 5 ∧
    ((handleSearch "guadalajara" (.ok sampleResults) initialState).1.searchResults).length
      = min 5 sampleResults.length :=
  claim_C3 "guadalajara" sampleResults initialState (by decide)

/-- Claim C6: when the geocoding fetch fails with a transport error, the
result list is cleared, the failure is logged, and the resulting component
state is identical to the state after a successful search with an empty
response: no error state is surfaced to the panel. -/
theorem claim_C6 (query : String) (s : MapState) (h : 3 ≤ query.length) :
    (handleSearch query (.error ()) s).1.searchResults = [] ∧
    (handleSearch query (.error ()) s).2.2 = true ∧
    (handleSearch query (.error ()) s).1 = (handleSearch query (.ok []) s).1 ∧
    (handleSearch query (.error ()) s).2.1 = (handleSearch query (.ok []) s).2.1 := by
  unfold handleSearch
  simp [if_neg (Nat.not_lt.mpr h)]

/-- Witness for claim C6: a failing fetch for the query "gua" from the
initial state. -/
theorem claim_C6_witness :
    (handleSearch "gua" (.error ()) initialState).1.searchResults = [] ∧
    (handleSearch "gua" (.error ()) initialState).2.2 = true ∧
    (handleSearch "gua" (.error ()) initialState).1
      = (handleSearch "gua" (.ok []) initialState).1 ∧
    (handleSearch "gua" (.error ()) initialState).2.1
      = (handleSearch "gua" (.ok []) initialState).2.1 :=
  claim_C6 "gua" initialState (by decide)

/-- Claim C4: completing one polygon while drawing mode is true turns
drawing mode off and produces exactly one export artifact, with MIME type
application/vnd.google-earth.kml+xml and filename area-selection.kml. -/
theorem claim_C4 (γ : Type) (layer : γ) (s : DrawSession γ)
    (_h : s.shell.isDrawing = true) :
    (onDrawCreated layer s).shell.isDrawing = false ∧
    (onDrawCreated layer s).artifacts
      = s.artifacts ++ [handleSaveKML placeholderKML] ∧
    ((onDrawCreated layer s).artifacts).length = s.artifacts.length + 1 ∧
    (handleSaveKML placeholderKML).mime
      = "application/vnd.google-earth.kml+xml" ∧
    (handleSaveKML placeholderKML).filename = "area-selection.kml" := by
  refine ⟨rfl, rfl, ?_, rfl, rfl⟩
  simp [onDrawCreated]

/-- A draw session with drawing mode enabled and no prior artifacts,
used to witness the completion behaviour. -/
def sampleDrawSession : DrawSession Unit :=
  { shell := { initialState with isDrawing := true }
    drawnItems := []
    artifacts := [] }

/-- Witness for claim C4: one polygon completed in a session with drawing
mode on yields drawing mode off and the single KML artifact. -/
theorem claim_C4_witness :
    (onDrawCreated () sampleDrawSession).shell.isDrawing = false ∧
    (onDrawCreated () sampleDrawSession).artifacts
      = sampleDrawSession.artifacts ++ [handleSaveKML placeholderKML] ∧
    ((onDrawCreated () sampleDrawSession).artifacts).length
      = sampleDrawSession.artifacts.length + 1 ∧
    (handleSaveKML placeholderKML).mime
      = "application/vnd.google-earth.kml+xml" ∧
    (handleSaveKML placeholderKML).filename = "area-selection.kml" :=
  claim_C4 Unit () sampleDrawSession rfl

/-- Claim C7: a mousedown whose target lies outside the date-picker
popover and its trigger and outside the sensor-menu popover and its
trigger closes both popovers in the one handler invocation; a mousedown
on a trigger button leaves the popover of that trigger untouched by the
handler. -/
theorem claim_C7 (t : ClickTarget) (s : MapState) :
    (t.inDatePickerContainer = false ∧ t.inDateButton = false ∧
     t.inSensorMenuContainer = false ∧ t.inSensorButton = false →
      (handleClickOutside t s).showDatePicker = false ∧
      (handleClickOutside t s).showSensorMenu = false) ∧
    (t.inDateButton = true →
      (handleClickOutside t s).showDatePicker = s.showDatePicker) ∧
    (t.inSensorButton = true →
      (handleClickOutside t s).showSensorMenu = s.showSensorMenu) := by
  refine ⟨?_, ?_, ?_⟩
  · rintro ⟨h1, h2, h3, h4⟩
    simp [handleClickOutside, h1, h2, h3, h4]
  · intro h
    simp only [handleClickOutside]
    split <;> simp [h]
  · intro h
    simp only [handleClickOutside]
    rw [if_neg (by simp [h])]
    split <;> rfl

/-- A state with both popovers open, used to witness the handler. -/
def bothPopoversOpen : MapState :=
  { initialState with showDatePicker := true, showSensorMenu := true }

/-- Witness for claim C7: from a state with both popovers open, a target
outside all four regions closes both; a target on the date trigger leaves
the date picker open; a target on the sensor trigger leaves the sensor
menu open. -/
theorem claim_C7_witness :
    ((handleClickOutside
        { inDatePickerContainer := false, inDateButton := false
          inSensorMenuContainer := false, inSensorButton := false }
        bothPopoversOpen).showDatePicker = false ∧
     (handleClickOutside
        { inDatePickerContainer := false, inDateButton := false
          inSensorMenuContainer := false, inSensorButton := false }
        bothPopoversOpen).showSensorMenu = false) ∧
    (handleClickOutside
        { inDatePickerContainer := false, inDateButton := true
          inSensorMenuContainer := false, inSensorButton := false }
        bothPopoversOpen).showDatePicker = bothPopoversOpen.showDatePicker ∧
    (handleClickOutside
        { inDatePickerContainer := false, inDateButton := false
          inSensorMenuContainer := false, inSensorButton := true }
        bothPopoversOpen).showSensorMenu = bothPopoversOpen.showSensorMenu :=
  ⟨(claim_C7 _ bothPopoversOpen).1 ⟨rfl, rfl, rfl, rfl⟩,
   (claim_C7 _ bothPopoversOpen).2.1 rfl,
   (claim_C7 _ bothPopoversOpen).2.2 rfl⟩

/-- Claim C8: selecting a place result re-centers and zooms the map view
to the parsed coordinates of the result with zoom 12, closes the search
panel, and clears both the query text and the result list.  `pf` is the
external parseFloat builtin. -/
theorem claim_C8 (pf : String → Rat) (result : SearchResult)
    (s : SessionState) (v : MapView) (h : s.view = some v) :
    (handleLocationSelect pf result s).view
      = some { lat := pf result.lat, lon := pf result.lon, zoom := 12 } ∧
    (handleLocationSelect pf result s).shell.showSearch = false ∧
    (handleLocationSelect pf result s).shell.searchQuery = "" ∧
    (handleLocationSelect pf result s).shell.searchResults = [] := by
  refine ⟨?_, rfl, rfl, rfl⟩
  simp [handleLocationSelect, h]

/-- A concrete place result used to witness location selection. -/
def sampleResult : SearchResult :=
  { display_name := "Guadalajara", lat := "20.67", lon := "-103.35" }

/-- A session whose map instance exists, used to witness location
selection. -/
def sampleSession : SessionState :=
  { shell := initialState, view := some { lat := 0, lon := 0, zoom := 12 } }

/-- Witness for claim C8: selecting the sample result with a constant
parse function re-centers the existing view and resets the search state. -/
theorem claim_C8_witness :
    (handleLocationSelect (fun _ => (0 : Rat)) sampleResult sampleSession).view
      = some { lat := 0, lon := 0, zoom := 12 } ∧
    (handleLocationSelect (fun _ => (0 : Rat)) sampleResult sampleSession).shell.showSearch
      = false ∧
    (handleLocationSelect (fun _ => (0 : Rat)) sampleResult sampleSession).shell.searchQuery
      = "" ∧
    (handleLocationSelect (fun _ => (0 : Rat)) sampleResult sampleSession).shell.searchResults
      = [] :=
  claim_C8 (fun _ => (0 : Rat)) sampleResult sampleSession
    { lat := 0, lon := 0, zoom := 12 } rfl

/-- Claim C9: the GetCapabilities fetch run once at mount never modifies
the component state, whatever the server returns: the legend labels the
view computes from the static WMS_RANGES table are unchanged, a
successful response is only logged, and a failure only logs the error. -/
theorem claim_C9 (resp : Except Unit String) (s : MapState) :
    (fetchWMSCapabilities resp s).1 = s ∧
    legendLabels (fetchWMSCapabilities resp s).1.selectedIndicator
      = legendLabels s.selectedIndicator ∧
    (∀ text, fetchWMSCapabilities (.ok text) s = (s, .capabilities text)) ∧
    (∀ e, fetchWMSCapabilities (.error e) s = (s, .capabilitiesError)) := by
  refine ⟨?_, ?_, fun text => rfl, fun e => rfl⟩ <;> cases resp <;> rfl

end Orber
